import Mathlib

/-!
Shallow embedding of the quick-stats benchmark tool, `src/main.rs` of
Luxbit/quick-stats.

The crate modules `benchmark`, `info` and `helpers` are not part of the
published sources; the data they produce enters the model as explicit
inputs (`Inputs`): the static CPU facts that `get_cpu_info` would return,
the GPU inventory that `get_gpu_info` would return, the pair that
`benchmark_cpu(5)` would return, and a sampler oracle standing for
`benchmark_gpu`.  Following the spec, the sampler may fail (a
`DeviceUnavailable` condition, which at the infallible Rust call sites of
`main.rs` corresponds to a panic); a failure therefore propagates out of
the enclosing computation.  Rust `f64` throughput/timing values are
modelled as rationals, and the two-decimal numeric formatting of the
plain renderer is abstracted by `fmtQ`.  JSON objects are modelled as
association lists in insertion order.
-/

namespace QuickStats

/-- Static CPU facts, the shape of `info::cpu::CpuInfo` as read by
`main.rs` (fields `os`, `os_version`, `arch`, `cpu_count`,
`total_memory`, `used_memory`, `total_swap`, `used_swap`). -/
structure CpuInfo where
  os : String
  os_version : Option String
  arch : Option String
  cpu_count : Nat
  total_memory : Nat
  used_memory : Nat
  total_swap : Nat
  used_swap : Nat
deriving DecidableEq

/-- Per-device GPU inventory facts, the shape of `info::gpu`'s records as
read by `main.rs`; the `device` field stands for the already
Debug-formatted device of the source (`format!` of `info.device`). -/
structure GpuInfo where
  device_id : Nat
  device : String
  name : Option String
  total_memory : Option Nat
  free_memory : Option Nat
  used_memory : Option Nat
deriving DecidableEq

/-- Battery facts, the shape of `info::power::BatteryInfo` as read by
`main.rs`. -/
structure BatteryInfo where
  has_battery : Bool
  charge_percent : Option ℚ
  is_charging : Option Bool
  wh_capacity : Option ℚ
deriving DecidableEq

/-- The compute targets `main.rs` benchmarks: `tch::Device::Mps` and
`tch::Device::Cuda(index)`. -/
inductive Device where
  | Mps : Device
  | Cuda (index : Nat) : Device
deriving DecidableEq

/-- Failure conditions of the spec's Throughput Sampler. -/
inductive BenchErr where
  | deviceUnavailable : BenchErr
  | insufficientPrecision : BenchErr
deriving DecidableEq

/-- A JSON value (`serde_json::Value`); objects keep their fields in
insertion order. -/
inductive JValue where
  | str (s : String) : JValue
  | num (q : ℚ) : JValue
  | jbool (b : Bool) : JValue
  | arr (elems : List JValue) : JValue
  | obj (fields : List (String × JValue)) : JValue

/-- The GPU sampler oracle: what `benchmark::gpu::benchmark_gpu` returns
for a device and iteration count, or a failure. -/
abbrev GpuSampler : Type := Device → Nat → Except BenchErr (ℚ × ℚ)

/-- Whether an `Except` value is a success. -/
def exOk {ε α : Type} : Except ε α → Bool
  | .ok _ => true
  | .error _ => false

/-- Abstracted rendering of a rational number (stands for the source's
two-decimal float formatting; no claim depends on the digits). -/
def fmtQ (q : ℚ) : String := toString q.num ++ "/" ++ toString q.den

/-- Modelled from the spec: `benchmark::gpu::benchmark_gpu` is not under
`src/`; it is the spec's Throughput Sampler run on a GPU device.  The
oracle gives its outcome and the second component records the invocation
trace (this one call). -/
def benchmark_gpu (orc : GpuSampler) (device : Device) (iterations : Nat) :
    Except BenchErr (ℚ × ℚ) × List Device :=
  (orc device iterations, [device])

/-- The JSON entry `benchmark_mps_gpu` builds for the unified device. -/
def mps_entry (t el : ℚ) : JValue :=
  JValue.obj [("device", JValue.str "MPS"), ("tflops", JValue.num t),
              ("duration", JValue.num el)]

/-- Function `benchmark_mps_gpu` of `main.rs`: one sampler run on `Device::Mps`
with 1000 iterations, one JSON entry. -/
def benchmark_mps_gpu (orc : GpuSampler) : Except BenchErr (List JValue) × List Device :=
  match benchmark_gpu orc Device.Mps 1000 with
  | (.error e, tr) => (.error e, tr)
  | (.ok (t, el), tr) => (.ok [mps_entry t el], tr)

/-- The JSON entry `benchmark_cuda_gpus` builds for one enumerated
device. -/
def cudaEntry (info : GpuInfo) (t el : ℚ) : JValue :=
  JValue.obj [("device_id", JValue.num info.device_id),
              ("device", JValue.str info.device),
              ("name", JValue.str (info.name.getD "Not available")),
              ("total_memory", JValue.num (info.total_memory.getD 0)),
              ("free_memory", JValue.num (info.free_memory.getD 0)),
              ("used_memory", JValue.num (info.used_memory.getD 0)),
              ("tflops", JValue.num t),
              ("duration", JValue.num el)]

/-- The enumeration loop of `benchmark_cuda_gpus`: one sampler run per
inventory entry, `Device::Cuda(index)` with 1000 iterations, pushing one
JSON entry each; the Rust call site has no error handling, so a sampler
failure aborts the loop. -/
def cudaLoop (orc : GpuSampler) : Nat → List GpuInfo → Except BenchErr (List JValue) × List Device
  | _, [] => (.ok [], [])
  | index, info :: rest =>
    match benchmark_gpu orc (Device.Cuda index) 1000 with
    | (.error e, tr) => (.error e, tr)
    | (.ok (t, el), tr) =>
      match cudaLoop orc (index + 1) rest with
      | (.error e, trr) => (.error e, tr ++ trr)
      | (.ok entries, trr) => (.ok (cudaEntry info t el :: entries), tr ++ trr)

/-- Function `benchmark_cuda_gpus` of `main.rs`, over the inventory that
`get_gpu_info` returned. -/
def benchmark_cuda_gpus (orc : GpuSampler) (gpu_infos : List GpuInfo) :
    Except BenchErr (List JValue) × List Device :=
  cudaLoop orc 0 gpu_infos

/-- The MPS-support test of `main.rs` lines 41-43:
`cpu_info.as_ref().map_or(false, ...)` — arm64 architecture and macos OS,
read from the *collected* CPU facts (absent facts select the CUDA
path). -/
def supports_mps (cpu_info : Option CpuInfo) : Bool :=
  match cpu_info with
  | none => false
  | some info => info.arch == some "arm64" && info.os == "macos"

/-- Everything `main` feeds the program with: CLI selections plus the
collaborator results (the `info`/`benchmark` modules are not under
`src/`, so their outputs are inputs of the model). -/
structure Inputs where
  features : List String
  output_format : String
  cpu_info_src : CpuInfo
  gpu_infos : List GpuInfo
  cpu_bench : ℚ × ℚ
  gpu_sampler : GpuSampler
  battery : BatteryInfo
  ping : Option Nat
  public_ip : Option String
  internet_speed : Option (ℚ × ℚ)

/-- The collected state of `main` after the feature blocks (`main.rs`
lines 23-62): the eight mutable locals. -/
structure Collected where
  cpu_info : Option CpuInfo
  cpu_gflops : Option ℚ
  cpu_elapsed_time : Option ℚ
  battery_info : Option BatteryInfo
  gpu_results : Option (List JValue)
  ping : Option Nat
  public_ip : Option String
  internet_speed : Option (ℚ × ℚ)

/-- The GPU feature block of `main` (lines 40-49): pick the unified or
the indexed path by `supports_mps`; the `?` operator propagates a
failure. -/
def gpu_step (inp : Inputs) (cpu_info : Option CpuInfo) :
    Except BenchErr (Option (List JValue)) × List Device :=
  if inp.features.contains "gpu" then
    if supports_mps cpu_info then
      let r := benchmark_mps_gpu inp.gpu_sampler
      (r.1.map some, r.2)
    else
      let r := benchmark_cuda_gpus inp.gpu_sampler inp.gpu_infos
      (r.1.map some, r.2)
  else (.ok none, [])

/-- The feature blocks of `main` (lines 23-62) assembled into the
collected state, together with the trace of sampler invocations made so
far. -/
def collect (inp : Inputs) : Except BenchErr Collected × List Device :=
  let cpu_info : Option CpuInfo :=
    if inp.features.contains "cpu" then some inp.cpu_info_src else none
  match gpu_step inp cpu_info with
  | (.error e, tr) => (.error e, tr)
  | (.ok gpu_results, tr) =>
    (.ok { cpu_info := cpu_info
           cpu_gflops := if inp.features.contains "cpu" then some inp.cpu_bench.1 else none
           cpu_elapsed_time := if inp.features.contains "cpu" then some inp.cpu_bench.2 else none
           battery_info := if inp.features.contains "battery" then some inp.battery else none
           gpu_results := gpu_results
           ping := if inp.features.contains "network" then inp.ping else none
           public_ip := if inp.features.contains "network" then inp.public_ip else none
           internet_speed := if inp.features.contains "network" then inp.internet_speed else none },
     tr)

/-- The `general` object of `generate_json_output` (lines 134-137). -/
def general_json (info : CpuInfo) : List (String × JValue) :=
  [("os", JValue.str info.os),
   ("os_version", JValue.str (info.os_version.getD "Not available"))]

/-- The `memory` object of `generate_json_output` (lines 140-145). -/
def memory_json (info : CpuInfo) : List (String × JValue) :=
  [("total_memory_mb", JValue.num info.total_memory),
   ("used_memory_mb", JValue.num info.used_memory),
   ("total_swap_mb", JValue.num info.total_swap),
   ("used_swap_mb", JValue.num info.used_swap)]

/-- The `cpu` object of `generate_json_output` (lines 148-153). -/
def cpu_json (info : CpuInfo) (gflops elapsed : ℚ) : List (String × JValue) :=
  [("arch", JValue.str (info.arch.getD "Not available")),
   ("cpu_count", JValue.num info.cpu_count),
   ("gflops", JValue.num gflops),
   ("benchmark_duration_seconds", JValue.num elapsed)]

/-- The `battery` object of `generate_json_output` (lines 160-167). -/
def battery_json (b : BatteryInfo) : List (String × JValue) :=
  [("has_battery", JValue.jbool b.has_battery),
   ("charge_percent", match b.charge_percent with
                      | some c => JValue.num c
                      | none => JValue.obj []),
   ("is_charging", match b.is_charging with
                   | some c => JValue.jbool c
                   | none => JValue.obj []),
   ("wh_capacity", match b.wh_capacity with
                   | some w => JValue.num w
                   | none => JValue.obj [])]

/-- The `network` object assembled by `generate_json_output`
(lines 170-185): its fields in insertion order, each present only when
the corresponding collaborator value is. -/
def network_fields (c : Collected) : List (String × JValue) :=
  (match c.ping with
   | some p => [("ping_ms", JValue.num p)]
   | none => []) ++
  (match c.public_ip with
   | some ip => [("public_ip", JValue.str ip)]
   | none => []) ++
  (match c.internet_speed with
   | some (d, u) => [("speed", JValue.obj [("download_mbps", JValue.num d),
                                           ("upload_mbps", JValue.num u)])]
   | none => [])

/-- Function `generate_json_output` of `main.rs` (lines 120-193): the top-level
JSON object as its fields in insertion order.  The `network` key is added
only when the assembled network object is non-empty (lines 187-190). -/
def generate_json_output (c : Collected) : List (String × JValue) :=
  (match c.cpu_info with
   | some info =>
     [("general", JValue.obj (general_json info)),
      ("memory", JValue.obj (memory_json info)),
      ("cpu", JValue.obj (cpu_json info (c.cpu_gflops.getD 0) (c.cpu_elapsed_time.getD 0)))]
   | none => []) ++
  (match c.gpu_results with
   | some g => [("gpu", JValue.arr g)]
   | none => []) ++
  (match c.battery_info with
   | some b => [("battery", JValue.obj (battery_json b))]
   | none => []) ++
  (if (network_fields c).isEmpty then [] else [("network", JValue.obj (network_fields c))])

/-- A tag classifying each string `generate_plain_output` pushes, by the
report topic it belongs to. -/
inductive PlainTag where
  | general : PlainTag
  | cpu : PlainTag
  | memory : PlainTag
  | gpu : PlainTag
  | battery : PlainTag
  | network : PlainTag
deriving DecidableEq

/-- Function `format_general_info` of `main.rs`. -/
def format_general_info (info : CpuInfo) : String :=
  "=> General:\nOS          : " ++ info.os ++
  "\nOS version  : " ++ info.os_version.getD "Not available" ++ "\n\n"

/-- Function `format_memory_info` of `main.rs`. -/
def format_memory_info (info : CpuInfo) : String :=
  "=> Memory:\nTotal       : " ++ toString info.total_memory ++
  " mb\nUsed        : " ++ toString info.used_memory ++
  " mb\nSwap Total  : " ++ toString info.total_swap ++
  " mb\nSwap Used   : " ++ toString info.used_swap ++ " mb\n\n"

/-- Function `format_cpu_info` of `main.rs`. -/
def format_cpu_info (info : CpuInfo) (gflops elapsed : ℚ) : String :=
  "=> CPU:\nArchitecture: " ++ info.arch.getD "Not available" ++
  "\nCount       : " ++ toString info.cpu_count ++
  "\nFLOPS       : " ++ fmtQ gflops ++
  " GFLOPS\nBenchmark duration: " ++ fmtQ elapsed ++ " seconds\n\n"

/-- Function `format_battery_info` of `main.rs`. -/
def format_battery_info (b : BatteryInfo) : String :=
  let charge := match b.charge_percent with
                | some c => fmtQ c ++ "%"
                | none => "None"
  let capacity := match b.wh_capacity with
                  | some w => fmtQ w ++ " Wh"
                  | none => "None"
  "=> Power:\nBattery         : " ++ toString b.has_battery ++
  "\nState of charge : " ++ charge ++
  "\nCharging        : " ++ toString (b.is_charging.getD false) ++
  "\nCapacity        : " ++ capacity ++ "\n\n"

/-- Function `format_mps_gpu_info` of `main.rs` (lines 350-359): note that it
*re-runs* `benchmark_gpu` on `Device::Mps` instead of reading the
collected results. -/
def format_mps_gpu_info (orc : GpuSampler) : Except BenchErr String × List Device :=
  match benchmark_gpu orc Device.Mps 1000 with
  | (.error e, tr) => (.error e, tr)
  | (.ok (t, el), tr) =>
    (.ok ("=> GPU:\nGPU: integrated (MPS)\nGPU FLOPS: " ++ fmtQ t ++
          " TFLOPS\nGPU benchmark duration: " ++ fmtQ el ++ " seconds\n\n"), tr)

/-- The per-device text of `format_cuda_gpus_info`. -/
def cudaInfoString (info : GpuInfo) (t el : ℚ) : String :=
  "CUDA Device " ++ toString info.device_id ++ " Information:\nDevice: " ++
  info.device ++ "\nName: " ++ info.name.getD "Not available" ++
  "\nTotal Memory: " ++ toString (info.total_memory.getD 0) ++
  "\nFree Memory: " ++ toString (info.free_memory.getD 0) ++
  "\nUsed Memory: " ++ toString (info.used_memory.getD 0) ++
  "\nGPU Estimated FLOPS: " ++ fmtQ t ++
  " TFLOPS\nGPU benchmark duration: " ++ fmtQ el ++ " seconds\n"

/-- The loop of `format_cuda_gpus_info` (lines 361-388): it re-queries
the inventory and *re-runs* `benchmark_gpu` per device. -/
def cudaInfoLoop (orc : GpuSampler) : Nat → List GpuInfo → Except BenchErr String × List Device
  | _, [] => (.ok "", [])
  | index, info :: rest =>
    match benchmark_gpu orc (Device.Cuda index) 1000 with
    | (.error e, tr) => (.error e, tr)
    | (.ok (t, el), tr) =>
      match cudaInfoLoop orc (index + 1) rest with
      | (.error e, trr) => (.error e, tr ++ trr)
      | (.ok s, trr) => (.ok (cudaInfoString info t el ++ s), tr ++ trr)

/-- Function `format_cuda_gpus_info` of `main.rs`. -/
def format_cuda_gpus_info (orc : GpuSampler) (gpu_infos : List GpuInfo) :
    Except BenchErr String × List Device :=
  cudaInfoLoop orc 0 gpu_infos

/-- The GPU block of `generate_plain_output` (lines 221-232): formatting
runs only when GPU results were collected *and* CPU facts are present,
re-testing MPS support on those facts. -/
def gpu_plain_fmt (orc : GpuSampler) (gpu_infos : List GpuInfo) (c : Collected) :
    Option (Except BenchErr String × List Device) :=
  match c.gpu_results, c.cpu_info with
  | some _, some info =>
    some (if info.arch == some "arm64" && info.os == "macos"
          then format_mps_gpu_info orc
          else format_cuda_gpus_info orc gpu_infos)
  | _, _ => none

/-- The CPU block of `generate_plain_output` (lines 207-219): general,
then CPU, then memory. -/
def plain_cpu_secs (c : Collected) : List (PlainTag × String) :=
  match c.cpu_info with
  | some info =>
    [(PlainTag.general, format_general_info info),
     (PlainTag.cpu, format_cpu_info info (c.cpu_gflops.getD 0) (c.cpu_elapsed_time.getD 0)),
     (PlainTag.memory, format_memory_info info)]
  | none => []

/-- The battery and network pushes of `generate_plain_output`
(lines 234-248). -/
def plain_tail_secs (c : Collected) : List (PlainTag × String) :=
  (match c.battery_info with
   | some b => [(PlainTag.battery, format_battery_info b)]
   | none => []) ++
  (match c.ping with
   | some p => [(PlainTag.network, "=> Network:\nInternet Ping: " ++ toString p ++ " ms\n")]
   | none => []) ++
  (match c.public_ip with
   | some ip => [(PlainTag.network, "Public IP: " ++ ip ++ "\n")]
   | none => []) ++
  (match c.internet_speed with
   | some (d, u) => [(PlainTag.network,
       "Download speed: " ++ fmtQ d ++ " Mbps (minimum)\nUpload speed: " ++
       fmtQ u ++ " Mbps (minimum)\n")]
   | none => [])

/-- Function `generate_plain_output` of `main.rs` (lines 195-250) as the sequence
of pushed strings, each tagged with its topic, plus the trace of sampler
invocations the rendering itself makes. -/
def generate_plain_output (orc : GpuSampler) (gpu_infos : List GpuInfo) (c : Collected) :
    Except BenchErr (List (PlainTag × String)) × List Device :=
  match gpu_plain_fmt orc gpu_infos c with
  | some (.error e, tr) => (.error e, tr)
  | some (.ok s, tr) =>
    (.ok (plain_cpu_secs c ++ [(PlainTag.gpu, s)] ++ plain_tail_secs c), tr)
  | none => (.ok (plain_cpu_secs c ++ plain_tail_secs c), [])

/-- The rendered output handed to `write_output`. -/
inductive Output where
  | json (fields : List (String × JValue)) : Output
  | plain (sections : List (PlainTag × String)) : Output

/-- The tag sequence of a plain rendering (a JSON rendering exposes its
keys instead). -/
def outputTags : Output → List PlainTag
  | .json _ => []
  | .plain secs => secs.map Prod.fst

/-- Function `main` of `main.rs`: collect per the requested features, then render
per the requested format; the second component is the full trace of
sampler invocations of the run. -/
def run (inp : Inputs) : Except BenchErr Output × List Device :=
  match collect inp with
  | (.error e, tr) => (.error e, tr)
  | (.ok c, tr) =>
    if inp.output_format = "json" then (.ok (Output.json (generate_json_output c)), tr)
    else
      match generate_plain_output inp.gpu_sampler inp.gpu_infos c with
      | (.error e, trr) => (.error e, tr ++ trr)
      | (.ok secs, trr) => (.ok (Output.plain secs), tr ++ trr)

/-- Modelled from the spec: `flops_per_iteration(size) = 2 * size^3`, the
dense-matmul operation count of the Throughput Sampler (section 4.2 of
the spec; the `benchmark` module is not under `src/`). -/
def flops_per_iteration (size : Nat) : Nat := 2 * size ^ 3

/-- Modelled from the spec: the retry loop of the Throughput Sampler.
`clock` gives the monotonic elapsed time observed for a given iteration
count; a non-positive reading escalates the iteration count (doubling)
and retries, and exhausting the retry budget fails with
`InsufficientPrecision`; division happens only under a positive elapsed
time.  Returns (throughput, elapsed_seconds); the fixed GFLOPS/TFLOPS
scaling divisor is omitted as it does not affect positivity. -/
def sample_go (clock : Nat → ℚ) (size : Nat) : Nat → Nat → Except BenchErr (ℚ × ℚ)
  | 0, _ => .error BenchErr.insufficientPrecision
  | retries + 1, iterations =>
    let elapsed := clock iterations
    if elapsed ≤ 0 then sample_go clock size retries (2 * iterations)
    else .ok (((flops_per_iteration size * iterations : Nat) : ℚ) / elapsed, elapsed)

/-- Modelled from the spec: `sample(device, iterations, size)` with a
fixed retry budget. -/
def sample (clock : Nat → ℚ) (iterations size : Nat) : Except BenchErr (ℚ × ℚ) :=
  sample_go clock size 32 iterations

/-! ## Fixtures used by concrete evaluations -/

/-- A sampler that succeeds on every device with throughput 1, elapsed 1. -/
def okSampler : GpuSampler := fun _ _ => .ok (1, 1)

/-- Static CPU facts of an arm64 macOS host. -/
def macInfo : CpuInfo :=
  { os := "macos", os_version := some "14.0", arch := some "arm64", cpu_count := 8,
    total_memory := 16384, used_memory := 8192, total_swap := 0, used_swap := 0 }

/-- Static CPU facts of an x86_64 Linux host (the spec's section 8.6
example). -/
def linuxInfo : CpuInfo :=
  { os := "linux", os_version := some "6.1", arch := some "x86_64", cpu_count := 8,
    total_memory := 32768, used_memory := 1024, total_swap := 2048, used_swap := 0 }

/-- A host with no battery. -/
def noBattery : BatteryInfo :=
  { has_battery := false, charge_percent := none, is_charging := none, wh_capacity := none }

/-! ## C1: backend selection policy -/

/-- C1: the backend selector chooses the unified-memory (MPS) path
exactly when the collected host facts say architecture `arm64` and OS
`macos`; every other combination — a different architecture or OS, an
absent (`none`) architecture, or absent host facts altogether — selects
the indexed (CUDA) enumeration path (`supports_mps = false`). -/
theorem C1_backend_selector (ci : Option CpuInfo) :
    supports_mps ci = true ↔
      ∃ info, ci = some info ∧ info.arch = some "arm64" ∧ info.os = "macos" := by
  cases ci with
  | none => simp [supports_mps]
  | some info => simp [supports_mps]

/-! ## C8: the sampler never reports non-positive elapsed time -/

/-- Every successful outcome of the retry loop carries a positive elapsed
time. -/
theorem sample_go_pos (clock : Nat → ℚ) (size : Nat) :
    ∀ (retries iterations : Nat) (t e : ℚ),
      sample_go clock size retries iterations = .ok (t, e) → 0 < e := by
  intro retries
  induction retries with
  | zero =>
    intro iterations t e h
    exact absurd h (by simp [sample_go])
  | succ n ih =>
    intro iterations t e h
    simp only [sample_go] at h
    split at h
    · exact ih _ _ _ h
    · next hc =>
      injection h with h1
      injection h1 with h2 h3
      subst h3
      exact not_le.mp hc

/-- A clock that never reports positive time exhausts the retry budget
and the loop fails with `InsufficientPrecision`. -/
theorem sample_go_all_nonpos (clock : Nat → ℚ) (size : Nat)
    (hg : ∀ n, clock n ≤ 0) :
    ∀ (retries iterations : Nat),
      sample_go clock size retries iterations = .error BenchErr.insufficientPrecision := by
  intro retries
  induction retries with
  | zero => intro iterations; rfl
  | succ n ih =>
    intro iterations
    simp only [sample_go]
    rw [if_pos (hg iterations)]
    exact ih _

/-- C8: the function `sample` never returns a result with non-positive
`elapsed_seconds`; when the monotonic clock only ever reports
non-positive elapsed time, the call escalates the iteration count and
finally fails with `InsufficientPrecision` — the throughput division is
only ever performed under a positive elapsed time, so no division by
zero occurs. -/
theorem C8_sample_positive_elapsed (clock : Nat → ℚ) (iterations size : Nat) :
    (∀ t e, sample clock iterations size = .ok (t, e) → 0 < e) ∧
    ((∀ n, clock n ≤ 0) →
      sample clock iterations size = .error BenchErr.insufficientPrecision) :=
  ⟨fun t e h => sample_go_pos clock size 32 iterations t e h,
   fun hg => sample_go_all_nonpos clock size hg 32 iterations⟩

/-- Witness for C8 at concrete inputs: a unit clock yields a positive
elapsed time, and an always-zero clock yields `InsufficientPrecision`. -/
theorem C8_witness :
    (0 : ℚ) < 1 ∧
    sample (fun _ => 0) 10 4 = .error BenchErr.insufficientPrecision := by
  constructor
  · exact (C8_sample_positive_elapsed (fun _ => 1) 10 4).1
      (((flops_per_iteration 4 * 10 : ℕ) : ℚ) / 1) 1 rfl
  · exact (C8_sample_positive_elapsed (fun _ => 0) 10 4).2 (fun _ => le_refl 0)

/-! ## C5/C6: the indexed enumeration loop -/

/-- The entry list the enumeration loop produces when the sampler
succeeds on every index, starting at index `n`: position `i` holds the
entry built from inventory record `i` and the sample of device index
`n + i`, in enumeration order (the unreachable error branch yields
`[]`).  Proved below to be exactly what `cudaLoop` returns. -/
def cudaExpected (orc : GpuSampler) : Nat → List GpuInfo → List JValue
  | _, [] => []
  | n, info :: rest =>
    match orc (Device.Cuda n) 1000 with
    | .error _ => []
    | .ok (t, el) => cudaEntry info t el :: cudaExpected orc (n + 1) rest

/-- When the sampler succeeds on every enumerated index, the loop
returns exactly the index-aligned entry list: one entry per inventory
record, each paired with its own device's sample, in enumeration
order. -/
theorem cudaLoop_ok_eq (orc : GpuSampler) :
    ∀ (infos : List GpuInfo) (n : Nat),
      (∀ i, i < infos.length → exOk (orc (Device.Cuda (n + i)) 1000) = true) →
      (cudaLoop orc n infos).1 = .ok (cudaExpected orc n infos) := by
  intro infos
  induction infos with
  | nil => intro n _; rfl
  | cons info rest ih =>
    intro n h
    have h0 := h 0 (Nat.succ_pos _)
    rw [Nat.add_zero] at h0
    cases ho : orc (Device.Cuda n) 1000 with
    | error e => rw [ho] at h0; simp [exOk] at h0
    | ok v =>
      obtain ⟨t, el⟩ := v
      have hrest := ih (n + 1) (fun i hi => by
        have hx := h (i + 1) (Nat.succ_lt_succ hi)
        rwa [show n + (i + 1) = n + 1 + i by omega] at hx)
      simp only [cudaLoop, benchmark_gpu, ho, cudaExpected]
      cases hrec : cudaLoop orc (n + 1) rest with
      | mk res tr =>
        rw [hrec] at hrest
        cases res with
        | error e => exact absurd hrest (by simp)
        | ok l2 =>
          simp only at hrest
          injection hrest with hl2
          subst hl2
          rfl

/-- Under the same success hypothesis the expected entry list has
exactly one entry per inventory record. -/
theorem cudaExpected_length (orc : GpuSampler) :
    ∀ (infos : List GpuInfo) (n : Nat),
      (∀ i, i < infos.length → exOk (orc (Device.Cuda (n + i)) 1000) = true) →
      (cudaExpected orc n infos).length = infos.length := by
  intro infos
  induction infos with
  | nil => intro n _; rfl
  | cons info rest ih =>
    intro n h
    have h0 := h 0 (Nat.succ_pos _)
    rw [Nat.add_zero] at h0
    cases ho : orc (Device.Cuda n) 1000 with
    | error e => rw [ho] at h0; simp [exOk] at h0
    | ok v =>
      obtain ⟨t, el⟩ := v
      simp only [cudaExpected, ho, List.length_cons]
      rw [ih (n + 1) (fun i hi => by
        have hx := h (i + 1) (Nat.succ_lt_succ hi)
        rwa [show n + (i + 1) = n + 1 + i by omega] at hx)]

/-- A sampler failure at index `k` — all earlier indices succeeding —
makes the whole loop return that failure (the Rust call site has no
per-device error handling). -/
theorem cudaLoop_err (orc : GpuSampler) :
    ∀ (infos : List GpuInfo) (n k : Nat) (err : BenchErr),
      k < infos.length →
      (∀ i, i < k → exOk (orc (Device.Cuda (n + i)) 1000) = true) →
      orc (Device.Cuda (n + k)) 1000 = .error err →
      (cudaLoop orc n infos).1 = .error err := by
  intro infos
  induction infos with
  | nil => intro n k err hk _ _; exact absurd hk (by simp)
  | cons info rest ih =>
    intro n k err hk hpre herr
    cases k with
    | zero =>
      rw [Nat.add_zero] at herr
      simp only [cudaLoop, benchmark_gpu, herr]
    | succ k =>
      have h0 := hpre 0 (Nat.succ_pos _)
      rw [Nat.add_zero] at h0
      cases ho : orc (Device.Cuda n) 1000 with
      | error e => rw [ho] at h0; simp [exOk] at h0
      | ok v =>
        obtain ⟨t, el⟩ := v
        have hrec := ih (n + 1) k err (Nat.lt_of_succ_lt_succ hk)
          (fun i hi => by
            have hx := hpre (i + 1) (Nat.succ_lt_succ hi)
            rwa [show n + (i + 1) = n + 1 + i by omega] at hx)
          (by rwa [show n + 1 + k = n + (k + 1) by omega])
        simp only [cudaLoop, benchmark_gpu, ho]
        cases hc : cudaLoop orc (n + 1) rest with
        | mk res tr =>
          rw [hc] at hrec
          cases res with
          | error e =>
            simp only at hrec
            injection hrec with he
            subst he
            rfl
          | ok l => exact absurd hrec (by simp)

/-- A sampler failing exactly on device index 1. -/
def failAt1Sampler : GpuSampler := fun d _ =>
  match d with
  | Device.Cuda 1 => .error BenchErr.deviceUnavailable
  | _ => .ok (1, 1)

/-- A concrete inventory record for device index `i`. -/
def gpuFact (i : Nat) : GpuInfo :=
  { device_id := i, device := "Cuda", name := some "gpu",
    total_memory := some 1024, free_memory := some 512, used_memory := some 512 }

/-- A three-device inventory. -/
def threeGpus : List GpuInfo := [gpuFact 0, gpuFact 1, gpuFact 2]

/-- C5 counterexample: under the indexed path with three devices and a
sampler failure on index 1, the code does not keep the entries of
indices 0 and 2 — the whole GPU collection fails (the Rust call site
would panic), so the GPU section holds no entries at all instead of
exactly two. -/
theorem C5_counterexample :
    (benchmark_cuda_gpus failAt1Sampler threeGpus).1 = .error BenchErr.deviceUnavailable ∧
    exOk (benchmark_cuda_gpus failAt1Sampler threeGpus).1 = false := by
  constructor <;> rfl

/-- C5 (amended): a failure of the sample on any single device index
aborts the whole GPU collection — it is returned as the failure of
`benchmark_cuda_gpus`, removing every entry, not just the failing
device's; when the sampler succeeds on every enumerated index, the
section is exactly the index-aligned entry list `cudaExpected`, i.e.
exactly one entry per enumerated device, each built from that device's
inventory record and its own sample, in enumeration order. -/
theorem C5_amended (orc : GpuSampler) (infos : List GpuInfo) :
    ((∀ i, i < infos.length → exOk (orc (Device.Cuda i) 1000) = true) →
      (benchmark_cuda_gpus orc infos).1 = .ok (cudaExpected orc 0 infos) ∧
      (cudaExpected orc 0 infos).length = infos.length) ∧
    (∀ k err, k < infos.length →
      (∀ i, i < k → exOk (orc (Device.Cuda i) 1000) = true) →
      orc (Device.Cuda k) 1000 = .error err →
      (benchmark_cuda_gpus orc infos).1 = .error err) := by
  constructor
  · intro h
    refine ⟨cudaLoop_ok_eq orc infos 0 (fun i hi => by simpa using h i hi), ?_⟩
    exact cudaExpected_length orc infos 0 (fun i hi => by simpa using h i hi)
  · intro k err hk hpre herr
    exact cudaLoop_err orc infos 0 k err hk (fun i hi => by simpa using hpre i hi)
      (by simpa using herr)

/-- Witness for C5 (amended) at concrete inputs: with all three devices
sampling fine the section is the three index-aligned entries, and with
a failure on index 1 the collection fails. -/
theorem C5_witness :
    ((benchmark_cuda_gpus okSampler threeGpus).1 = .ok (cudaExpected okSampler 0 threeGpus) ∧
      (cudaExpected okSampler 0 threeGpus).length = threeGpus.length) ∧
    (benchmark_cuda_gpus failAt1Sampler threeGpus).1 = .error BenchErr.deviceUnavailable := by
  constructor
  · exact (C5_amended okSampler threeGpus).1 (fun i _ => rfl)
  · exact (C5_amended failAt1Sampler threeGpus).2 1 BenchErr.deviceUnavailable (by decide)
      (fun i hi => by
        cases i with
        | zero => rfl
        | succ m => exact absurd hi (by omega))
      rfl

/-- The collected state after an indexed run that found zero devices. -/
def zeroGpuCollected : Collected :=
  { cpu_info := none, cpu_gflops := none, cpu_elapsed_time := none,
    battery_info := none, gpu_results := some [], ping := none,
    public_ip := none, internet_speed := none }

/-- C6: with a zero-device inventory the indexed path succeeds with an
empty entry list (no error, no sampler call), and whenever the collected
GPU results are that empty list the JSON report carries a `gpu` key
bound to an empty array — present, not absent. -/
theorem C6_zero_devices (orc : GpuSampler) (c : Collected)
    (h : c.gpu_results = some []) :
    benchmark_cuda_gpus orc [] = (.ok [], []) ∧
    ("gpu", JValue.arr []) ∈ generate_json_output c := by
  refine ⟨rfl, ?_⟩
  simp [generate_json_output, h]

/-- Witness for C6 at a concrete collected state. -/
theorem C6_witness :
    benchmark_cuda_gpus okSampler [] = (.ok [], []) ∧
    ("gpu", JValue.arr []) ∈ generate_json_output zeroGpuCollected :=
  C6_zero_devices okSampler zeroGpuCollected rfl

/-! ## C2: unified path end-to-end -/

/-- A run on an arm64 macOS host requesting exactly the gpu feature. -/
def gpuOnlyInput : Inputs :=
  { features := ["gpu"], output_format := "json", cpu_info_src := macInfo,
    gpu_infos := [], cpu_bench := (1, 1), gpu_sampler := okSampler,
    battery := noBattery, ping := none, public_ip := none, internet_speed := none }

/-- C2 counterexample: on an arm64 macOS host with the requested feature
set exactly the gpu category, the MPS test reads the *collected* CPU
facts, which are absent because the cpu feature was not requested; the
code therefore takes the indexed (CUDA) path, and with an empty
inventory the GPU section is the empty list — not one MPS entry. -/
theorem C2_counterexample :
    Except.map Collected.gpu_results (collect gpuOnlyInput).1 = .ok (some []) ∧
    ([] : List JValue).length ≠ 1 := by
  exact ⟨rfl, by decide⟩

/-- C2 (amended): when the requested features include *both* cpu and gpu
(the MPS test reads the collected CPU facts, so the cpu feature must
also run) on an arm64 macOS host and the unified sampler succeeds, the
GPU section is exactly one entry, the MPS one. -/
theorem C2_amended (inp : Inputs) (t el : ℚ)
    (hcpu : inp.features.contains "cpu" = true)
    (hgpu : inp.features.contains "gpu" = true)
    (harch : inp.cpu_info_src.arch = some "arm64")
    (hos : inp.cpu_info_src.os = "macos")
    (hs : inp.gpu_sampler Device.Mps 1000 = .ok (t, el)) :
    Except.map Collected.gpu_results (collect inp).1 = .ok (some [mps_entry t el]) := by
  have hsup : supports_mps (some inp.cpu_info_src) = true := by
    simp [supports_mps, harch, hos]
  have hcpu' : "cpu" ∈ inp.features := by simpa using hcpu
  have hgpu' : "gpu" ∈ inp.features := by simpa using hgpu
  simp [collect, gpu_step, hcpu', hgpu', hsup, benchmark_mps_gpu, benchmark_gpu, hs,
    Except.map]

/-- A run on an arm64 macOS host requesting cpu and gpu. -/
def cpuGpuMacInput : Inputs :=
  { features := ["cpu", "gpu"], output_format := "json", cpu_info_src := macInfo,
    gpu_infos := [], cpu_bench := (1, 1), gpu_sampler := okSampler,
    battery := noBattery, ping := none, public_ip := none, internet_speed := none }

/-- Witness for C2 (amended) at a concrete run. -/
theorem C2_witness :
    Except.map Collected.gpu_results (collect cpuGpuMacInput).1 = .ok (some [mps_entry 1 1]) :=
  C2_amended cpuGpuMacInput 1 1 rfl rfl rfl rfl rfl

/-! ## C3: sampler invocations per device -/

/-- A plain-format run on an arm64 macOS host requesting cpu and gpu. -/
def plainMacInput : Inputs :=
  { features := ["cpu", "gpu"], output_format := "plain", cpu_info_src := macInfo,
    gpu_infos := [], cpu_bench := (1, 1), gpu_sampler := okSampler,
    battery := noBattery, ping := none, public_ip := none, internet_speed := none }

/-- The same run with JSON output. -/
def jsonMacInput : Inputs :=
  { plainMacInput with output_format := "json" }

/-- C3: under JSON output the sampler runs once for the single unified
device, but under plain output it runs twice — once in
`benchmark_mps_gpu` during collection and once more in
`format_mps_gpu_info` during rendering, which ignores the collected
results and re-benchmarks.  The sampler invocation count therefore does
depend on the chosen output format, contradicting the once-per-device
contract. -/
theorem C3_plain_double_benchmark :
    (run jsonMacInput).2 = [Device.Mps] ∧
    (run plainMacInput).2 = [Device.Mps, Device.Mps] := by
  exact ⟨rfl, rfl⟩

/-! ## C7: cpu-only report -/

/-- C7: requesting only the cpu feature yields a JSON report whose keys
are exactly `general`, `memory`, `cpu` — so no gpu, battery or network
section — with the CPU section carrying a `gflops` throughput field. -/
theorem C7_cpu_only (inp : Inputs) (c : Collected) (tr : List Device)
    (hf : inp.features = ["cpu"])
    (hc : collect inp = (.ok c, tr)) :
    (generate_json_output c).map Prod.fst = ["general", "memory", "cpu"] ∧
    ("cpu", JValue.obj (cpu_json inp.cpu_info_src inp.cpu_bench.1 inp.cpu_bench.2)) ∈
      generate_json_output c ∧
    "gflops" ∈ (cpu_json inp.cpu_info_src inp.cpu_bench.1 inp.cpu_bench.2).map Prod.fst := by
  have hcol : collect inp = (.ok
      { cpu_info := some inp.cpu_info_src, cpu_gflops := some inp.cpu_bench.1,
        cpu_elapsed_time := some inp.cpu_bench.2, battery_info := none,
        gpu_results := none, ping := none, public_ip := none,
        internet_speed := none }, []) := by
    simp [collect, gpu_step, hf]
  have heq := hcol.symm.trans hc
  injection heq with h1 h2
  injection h1 with h3
  subst h3
  subst h2
  refine ⟨rfl, ?_, by simp [cpu_json]⟩
  simp [generate_json_output]

/-- A cpu-only run on the Linux host. -/
def cpuOnlyInput : Inputs :=
  { features := ["cpu"], output_format := "json", cpu_info_src := linuxInfo,
    gpu_infos := [], cpu_bench := (1, 1), gpu_sampler := okSampler,
    battery := noBattery, ping := none, public_ip := none, internet_speed := none }

/-- The collected state of that cpu-only run. -/
def cpuOnlyCollected : Collected :=
  { cpu_info := some linuxInfo, cpu_gflops := some 1, cpu_elapsed_time := some 1,
    battery_info := none, gpu_results := none, ping := none, public_ip := none,
    internet_speed := none }

/-- Witness for C7 at a concrete cpu-only run. -/
theorem C7_witness :
    (generate_json_output cpuOnlyCollected).map Prod.fst = ["general", "memory", "cpu"] ∧
    ("cpu", JValue.obj (cpu_json cpuOnlyInput.cpu_info_src cpuOnlyInput.cpu_bench.1
        cpuOnlyInput.cpu_bench.2)) ∈ generate_json_output cpuOnlyCollected ∧
    "gflops" ∈ (cpu_json cpuOnlyInput.cpu_info_src cpuOnlyInput.cpu_bench.1
        cpuOnlyInput.cpu_bench.2).map Prod.fst :=
  C7_cpu_only cpuOnlyInput cpuOnlyCollected [] rfl rfl

/-! ## Characterizations of the renderer outputs (proved below against
the embedded renderers) -/

/-- The topic tags of the CPU block of a plain rendering. -/
def plain_cpu_tags (c : Collected) : List PlainTag :=
  match c.cpu_info with
  | some _ => [PlainTag.general, PlainTag.cpu, PlainTag.memory]
  | none => []

/-- The topic tag of the GPU block of a plain rendering: present exactly
when GPU results were collected and CPU facts are present. -/
def plain_gpu_tags (c : Collected) : List PlainTag :=
  match c.gpu_results, c.cpu_info with
  | some _, some _ => [PlainTag.gpu]
  | _, _ => []

/-- The topic tags of the battery/network pushes of a plain rendering. -/
def plain_tail_tags (c : Collected) : List PlainTag :=
  (match c.battery_info with | some _ => [PlainTag.battery] | none => []) ++
  (match c.ping with | some _ => [PlainTag.network] | none => []) ++
  (match c.public_ip with | some _ => [PlainTag.network] | none => []) ++
  (match c.internet_speed with | some _ => [PlainTag.network] | none => [])

/-- The key sequence of the JSON rendering. -/
def json_keys (c : Collected) : List String :=
  (match c.cpu_info with | some _ => ["general", "memory", "cpu"] | none => []) ++
  (match c.gpu_results with | some _ => ["gpu"] | none => []) ++
  (match c.battery_info with | some _ => ["battery"] | none => []) ++
  (if (network_fields c).isEmpty then [] else ["network"])

theorem map_fst_plain_cpu_secs (c : Collected) :
    (plain_cpu_secs c).map Prod.fst = plain_cpu_tags c := by
  cases h : c.cpu_info <;> simp [plain_cpu_secs, plain_cpu_tags, h]

theorem map_fst_plain_tail_secs (c : Collected) :
    (plain_tail_secs c).map Prod.fst = plain_tail_tags c := by
  obtain ⟨ci, cg, ce, bi, gr, pg, ip, sp⟩ := c
  rcases bi with _ | b <;> rcases pg with _ | p <;> rcases ip with _ | ip1 <;>
    rcases sp with _ | ⟨d, u⟩ <;> simp [plain_tail_secs, plain_tail_tags]

/-- A successful plain rendering pushes exactly the CPU block, then the
GPU block, then the battery/network pushes. -/
theorem plain_ok_tags (orc : GpuSampler) (gpu_infos : List GpuInfo) (c : Collected)
    (secs : List (PlainTag × String)) (tr : List Device)
    (h : generate_plain_output orc gpu_infos c = (.ok secs, tr)) :
    secs.map Prod.fst = plain_cpu_tags c ++ plain_gpu_tags c ++ plain_tail_tags c := by
  unfold generate_plain_output at h
  cases hf : gpu_plain_fmt orc gpu_infos c with
  | none =>
    rw [hf] at h
    injection h with h1 h2
    injection h1 with h3
    subst h3
    have hg : plain_gpu_tags c = [] := by
      unfold gpu_plain_fmt at hf
      unfold plain_gpu_tags
      cases hgr : c.gpu_results <;> cases hci : c.cpu_info <;>
        simp [hgr, hci] at hf ⊢
    simp [map_fst_plain_cpu_secs, map_fst_plain_tail_secs, hg]
  | some pr =>
    obtain ⟨res, tr1⟩ := pr
    cases res with
    | error e =>
      rw [hf] at h
      exact absurd h (by simp)
    | ok s =>
      rw [hf] at h
      injection h with h1 h2
      injection h1 with h3
      subst h3
      have hg : plain_gpu_tags c = [PlainTag.gpu] := by
        unfold gpu_plain_fmt at hf
        unfold plain_gpu_tags
        cases hgr : c.gpu_results <;> cases hci : c.cpu_info <;>
          simp [hgr, hci] at hf ⊢
      simp [map_fst_plain_cpu_secs, map_fst_plain_tail_secs, hg]

theorem map_fst_generate_json_output (c : Collected) :
    (generate_json_output c).map Prod.fst = json_keys c := by
  obtain ⟨ci, cg, ce, bi, gr, pg, ip, sp⟩ := c
  rcases ci with _ | info <;> rcases gr with _ | g <;> rcases bi with _ | b <;>
    rcases pg with _ | p <;> rcases ip with _ | ip1 <;> rcases sp with _ | ⟨d, u⟩ <;>
    simp [generate_json_output, json_keys, network_fields]

/-! ## C4: section order of the rendered report -/

/-- The position of each topic in the order the *plain* renderer pushes
sections: general, cpu, memory, gpu, battery, network. -/
def tagRank : PlainTag → Nat
  | .general => 0
  | .cpu => 1
  | .memory => 2
  | .gpu => 3
  | .battery => 4
  | .network => 5

/-- The position of each key in the order the JSON renderer inserts
top-level keys: general, memory, cpu, gpu, battery, network. -/
def keyRank (k : String) : Nat :=
  if k = "general" then 0 else if k = "memory" then 1 else if k = "cpu" then 2
  else if k = "gpu" then 3 else if k = "battery" then 4 else 5

/-- A plain-format cpu-only run. -/
def cpuOnlyPlainInput : Inputs :=
  { cpuOnlyInput with output_format := "plain" }

/-- The sections that run renders. -/
def cpuOnlyPlainSecs : List (PlainTag × String) :=
  [(PlainTag.general, format_general_info linuxInfo),
   (PlainTag.cpu, format_cpu_info linuxInfo 1 1),
   (PlainTag.memory, format_memory_info linuxInfo)]

/-- C4 counterexample: in the plain rendering of a cpu-only run the
sections appear as general, cpu, memory — the cpu section comes *before*
the memory section, not after it as the claimed fixed order
general, memory, cpu, gpu, battery, network requires. -/
theorem C4_counterexample :
    (run cpuOnlyPlainInput).1 = .ok (Output.plain cpuOnlyPlainSecs) ∧
    cpuOnlyPlainSecs.map Prod.fst = [PlainTag.general, PlainTag.cpu, PlainTag.memory] ∧
    List.indexOf PlainTag.cpu (cpuOnlyPlainSecs.map Prod.fst) <
      List.indexOf PlainTag.memory (cpuOnlyPlainSecs.map Prod.fst) := by
  refine ⟨rfl, rfl, by decide⟩

/-- C4 (amended): each rendering keeps a fixed section order, but the
two renderers disagree on it — plain output pushes sections in the order
general, cpu, memory, gpu, battery, network (cpu before memory), while
the JSON output inserts its keys in the order
general, memory, cpu, gpu, battery, network; in both, each section is
present only if it ran. -/
theorem C4_amended (orc : GpuSampler) (gpu_infos : List GpuInfo) (c : Collected)
    (secs : List (PlainTag × String)) (tr : List Device)
    (h : generate_plain_output orc gpu_infos c = (.ok secs, tr)) :
    List.Pairwise (fun a b => tagRank a ≤ tagRank b) (secs.map Prod.fst) ∧
    List.Pairwise (fun a b => keyRank a ≤ keyRank b)
      ((generate_json_output c).map Prod.fst) := by
  rw [plain_ok_tags orc gpu_infos c secs tr h, map_fst_generate_json_output]
  obtain ⟨ci, cg, ce, bi, gr, pg, ip, sp⟩ := c
  rcases ci with _ | info <;> rcases gr with _ | g <;> rcases bi with _ | b <;>
    rcases pg with _ | p <;> rcases ip with _ | ip1 <;> rcases sp with _ | ⟨d, u⟩ <;>
    exact ⟨by simp [plain_cpu_tags, plain_gpu_tags, plain_tail_tags] <;> decide,
           by simp [json_keys, network_fields] <;> decide⟩

/-- Witness for C4 (amended) at a concrete run. -/
theorem C4_witness :
    List.Pairwise (fun a b => tagRank a ≤ tagRank b) (cpuOnlyPlainSecs.map Prod.fst) ∧
    List.Pairwise (fun a b => keyRank a ≤ keyRank b)
      ((generate_json_output cpuOnlyCollected).map Prod.fst) :=
  C4_amended okSampler [] cpuOnlyCollected cpuOnlyPlainSecs [] rfl

/-! ## C9: plain rendering of gpu-without-cpu runs -/

/-- A successful collection fixes the CPU facts by the cpu feature flag
and the GPU results by the GPU step. -/
theorem collect_fields (inp : Inputs) (c : Collected) (tr : List Device)
    (h : collect inp = (.ok c, tr)) :
    c.cpu_info = (if inp.features.contains "cpu" then some inp.cpu_info_src else none) ∧
    (gpu_step inp (if inp.features.contains "cpu" then some inp.cpu_info_src else none)).1
      = .ok c.gpu_results := by
  simp only [collect] at h
  split at h
  · exact absurd h (by simp)
  · next gr gtr heq =>
    injection h with h1 h2
    injection h1 with h3
    subst h3
    exact ⟨rfl, by rw [heq]⟩

/-- A successful plain-format run factors through a successful collection
and a successful plain rendering. -/
theorem run_plain_ok (inp : Inputs) (secs : List (PlainTag × String)) (tr : List Device)
    (hfmt : inp.output_format ≠ "json")
    (hr : run inp = (.ok (Output.plain secs), tr)) :
    ∃ c ctr ptr, collect inp = (.ok c, ctr) ∧
      generate_plain_output inp.gpu_sampler inp.gpu_infos c = (.ok secs, ptr) := by
  unfold run at hr
  split at hr
  · exact absurd hr (by simp)
  · next c ctr heq =>
    rw [if_neg hfmt] at hr
    split at hr
    · exact absurd hr (by simp)
    · next s2 ptr heq2 =>
      injection hr with h1 h2
      injection h1 with h3
      injection h3 with h4
      subst h4
      exact ⟨c, ctr, ptr, heq, heq2⟩

/-- The battery/network pushes never carry the gpu tag. -/
theorem gpu_not_mem_tail (c : Collected) : PlainTag.gpu ∉ plain_tail_tags c := by
  obtain ⟨ci, cg, ce, bi, gr, pg, ip, sp⟩ := c
  rcases bi with _ | b <;> rcases pg with _ | p <;> rcases ip with _ | ip1 <;>
    rcases sp with _ | ⟨d, u⟩ <;> simp [plain_tail_tags]

/-- C9: in plain format, when the gpu feature is requested but cpu is
not, the rendered output contains no GPU section at all, even though the
GPU benchmark results were collected (the collected state's
`gpu_results` is populated). -/
theorem C9_plain_no_gpu_section (inp : Inputs) (secs : List (PlainTag × String))
    (tr : List Device)
    (hgpu : inp.features.contains "gpu" = true)
    (hcpu : inp.features.contains "cpu" = false)
    (hfmt : inp.output_format ≠ "json")
    (hr : run inp = (.ok (Output.plain secs), tr)) :
    PlainTag.gpu ∉ secs.map Prod.fst ∧
    Except.map (fun c => c.gpu_results.isSome) (collect inp).1 = .ok true := by
  obtain ⟨c, ctr, ptr, hcol, hpo⟩ := run_plain_ok inp secs tr hfmt hr
  obtain ⟨hfield, hgstep⟩ := collect_fields inp c ctr hcol
  rw [hcpu] at hfield hgstep
  simp only [Bool.false_eq_true, if_false] at hfield hgstep
  have hgpu' : "gpu" ∈ inp.features := by simpa using hgpu
  simp [gpu_step, hgpu', supports_mps] at hgstep
  cases hX : (benchmark_cuda_gpus inp.gpu_sampler inp.gpu_infos).1 with
  | error e => rw [hX] at hgstep; exact absurd hgstep (by simp [Except.map])
  | ok l =>
    rw [hX] at hgstep
    simp only [Except.map] at hgstep
    have hcgr : c.gpu_results = some l := (Except.ok.inj hgstep).symm
    constructor
    · rw [plain_ok_tags inp.gpu_sampler inp.gpu_infos c secs ptr hpo]
      simp [plain_cpu_tags, plain_gpu_tags, hfield, hcgr]
      exact gpu_not_mem_tail c
    · rw [hcol]
      simp [Except.map, hcgr]

/-- The gpu-only macOS run in plain format. -/
def gpuOnlyPlainInput : Inputs :=
  { gpuOnlyInput with output_format := "plain" }

/-- Witness for C9 at a concrete run. -/
theorem C9_witness :
    PlainTag.gpu ∉ ([] : List (PlainTag × String)).map Prod.fst ∧
    Except.map (fun c => c.gpu_results.isSome) (collect gpuOnlyPlainInput).1 = .ok true :=
  C9_plain_no_gpu_section gpuOnlyPlainInput [] [] rfl rfl (by decide) rfl

/-! ## C10: the network key of the JSON output -/

/-- C10: the JSON output has a `network` key exactly when at least one
of ping, public IP, or the speed probe produced a value, and any
`network` object it carries is non-empty. -/
theorem C10_network_key (c : Collected) :
    ("network" ∈ (generate_json_output c).map Prod.fst ↔
      (c.ping.isSome || c.public_ip.isSome || c.internet_speed.isSome) = true) ∧
    (∀ flds, ("network", JValue.obj flds) ∈ generate_json_output c → flds ≠ []) := by
  obtain ⟨ci, cg, ce, bi, gr, pg, ip, sp⟩ := c
  constructor
  · rw [map_fst_generate_json_output]
    rcases pg with _ | p <;> rcases ip with _ | ip1 <;> rcases sp with _ | ⟨d, u⟩ <;>
      rcases ci with _ | info <;> rcases gr with _ | g <;> rcases bi with _ | b <;>
      simp [json_keys, network_fields]
  · intro flds hmem
    rcases pg with _ | p <;> rcases ip with _ | ip1 <;> rcases sp with _ | ⟨d, u⟩ <;>
      rcases ci with _ | info <;> rcases gr with _ | g <;> rcases bi with _ | b <;>
      simp [generate_json_output, network_fields] at hmem <;>
      simp_all

/-- A collected state where only the ping probe produced a value. -/
def pingOnlyCollected : Collected :=
  { cpu_info := none, cpu_gflops := none, cpu_elapsed_time := none, battery_info := none,
    gpu_results := none, ping := some 5, public_ip := none, internet_speed := none }

/-- Witness for C10 at a concrete collected state. -/
theorem C10_witness :
    "network" ∈ (generate_json_output pingOnlyCollected).map Prod.fst ∧
    network_fields pingOnlyCollected ≠ [] := by
  constructor
  · exact (C10_network_key pingOnlyCollected).1.mpr rfl
  · exact (C10_network_key pingOnlyCollected).2 (network_fields pingOnlyCollected)
      (List.mem_cons_self _ _)

end QuickStats
